import Mathlib

/-!
Verification development for the stock-ai-dashboard application (`app.py`).

The embedding models the news-analysis pipeline (`analyze_single_news`,
`get_ai_summary`) and the time-series normalization / currency-conversion
arithmetic of the chart panel. Python attribute access on feed-entry objects is
modelled explicitly: an attribute is `Option PyVal`, where `Option.none` means
the attribute is missing (access raises `AttributeError`) and `PyVal.pynone`
means the attribute is present with value `None`. Fallible Python code is
embedded as `Except String _`, where `Except.error` means an exception escapes
the boundary of the function. The external collaborators (the RSS fetch and the
generative-text service) are oracles passed in as parameters.
-/

set_option autoImplicit false

namespace Dashboard

/-- A Python attribute value that occurs in this program: `None` or a string. -/
inductive PyVal where
  | pynone
  | str (s : String)
deriving DecidableEq, Repr

/-- The string Python interpolates for a value inside an f-string. -/
def pyStr : PyVal → String
  | PyVal.pynone => "None"
  | PyVal.str s => s

/-- A news-entry object (a feed entry or a `MockEntry`): `title` and `link`
attributes, each possibly missing (`Option.none`) or present with a value. -/
structure Entry where
  title : Option PyVal
  link : Option PyVal
deriving DecidableEq, Repr

/-- `MockEntry(title, link)` from app.py lines 90-94: both attributes present
as strings. -/
def MockEntry (title link : String) : Entry :=
  ⟨Option.some (PyVal.str title), Option.some (PyVal.str link)⟩

/-- The result dictionary built by `analyze_single_news` / `get_ai_summary`:
keys `title`, `link`, `category`, `ai_comment`. -/
structure AnalysisResult where
  title : PyVal
  link : PyVal
  category : String
  ai_comment : String
deriving DecidableEq, Repr

/-- Outcome of one `model.generate_content` call followed by `response.text`:
either the produced text, or an exception (any failure inside the `try` body,
including a raised `response.text` access). -/
inductive GenOutcome where
  | ok (text : String)
  | err (msg : String)
deriving DecidableEq, Repr

/-- The condition of app.py line 125:
not hasattr link, or the link attribute equal to the empty string, "#", or None. -/
def sentinelLink : Option PyVal → Bool
  | Option.none => true
  | Option.some PyVal.pynone => true
  | Option.some (PyVal.str s) => s = "" || s = "#"

/-- Whether `pat` occurs at the start of `s` (on character lists). -/
def startsWithChars : List Char → List Char → Bool
  | _, [] => true
  | [], _ :: _ => false
  | a :: as, b :: bs => (a == b) && startsWithChars as bs

/-- Whether `pat` occurs somewhere in `s` (on character lists). -/
def containsChars : List Char → List Char → Bool
  | [], pat => pat.isEmpty
  | a :: rest, pat => startsWithChars (a :: rest) pat || containsChars rest pat

/-- Drop leading whitespace characters from a character list. -/
def dropLeadingWs : List Char → List Char
  | [] => []
  | c :: cs => if c.isWhitespace then dropLeadingWs cs else c :: cs

/-- `str.strip()`: drop leading and trailing whitespace. -/
def pyStrip (s : String) : String :=
  ⟨(dropLeadingWs (dropLeadingWs s.data).reverse).reverse⟩

/-- `"pro" in MODEL_NAME` (Python substring containment). -/
def strContains (s pat : String) : Bool :=
  containsChars s.data pat.data

/-- The prompt f-string of app.py lines 140-150, with `detail_level` from
line 138. -/
def mkPrompt (modelName category title : String) : String :=
  let detail_level := if strContains modelName "pro" then "심층적으로" else "핵심만 명확하게"
  "\n        당신은 30대 퀀트 투자자입니다. \n        분야: " ++ category ++
  "\n        기사 제목: \"" ++ title ++ "\"\n        \n        1. 내용 요약 (한 줄)\n        2. 시장 영향 (호재/악재/중립)\n        3. 투자자 대응 (" ++
  detail_level ++ ")\n        \n        \x27친근한 해요체\x27로 3줄 이내 답변.\n        "

/-- `analyze_single_news(item)` of app.py lines 116-179.

The globals `model` (the configured generation handle, `None` when no API key
is connected) and `MODEL_NAME` are passed explicitly; the handle itself is the
oracle mapping a prompt to the outcome of the call. Branches, in source order:
the `entry is None` guard (line 121), the sentinel-link guard (line 125, using
getattr with default "제목 없음" for the returned title), the
`if not model` guard (line 134, which reads `entry.title` directly and so
raises `AttributeError` when the attribute is missing), and the `try` block.
Inside the `try`, the prompt interpolates `entry.title`; if that attribute is
missing the `AttributeError` is caught at line 172 but the handler itself reads
`entry.title` again at line 175, so the exception escapes the boundary. -/
def analyze_single_news (model : Option (String → GenOutcome)) (modelName : String)
    (item : Option Entry × String) : Except String AnalysisResult :=
  match item with
  | (Option.none, category) =>
      Except.ok ⟨PyVal.str "데이터 없음", PyVal.str "#", category, "데이터 로드에 실패했습니다."⟩
  | (Option.some entry, category) =>
      if sentinelLink entry.link then
        Except.ok ⟨entry.title.getD (PyVal.str "제목 없음"), PyVal.str "#", category,
          "관련된 최신 뉴스를 찾을 수 없습니다."⟩
      else
        match entry.title, entry.link with
        | Option.none, _ => Except.error "AttributeError"
        | Option.some _, Option.none => Except.error "AttributeError"
        | Option.some t, Option.some l =>
            match model with
            | Option.none =>
                Except.ok ⟨t, l, category, "API 키가 연결되지 않았습니다."⟩
            | Option.some gen =>
                match gen (mkPrompt modelName category (pyStr t)) with
                | GenOutcome.ok text =>
                    if pyStrip text = "" then
                      Except.ok ⟨t, l, category, "AI 분석 결과를 생성하지 못했습니다. 원문을 참고해주세요."⟩
                    else
                      Except.ok ⟨t, l, category, pyStrip text⟩
                | GenOutcome.err e =>
                    Except.ok ⟨t, l, category, "분석 중 오류 발생: " ++ e⟩

/-- Outcome of one RSS search fetch for a query (app.py lines 210-225):
either the whole `try` body raised (`requests.get` or `feedparser.parse`
failure), or a response arrived with a status code and a parsed entry list. -/
inductive FetchResult where
  | raised
  | response (status : Nat) (entries : List Entry)

/-- The `found_entry` computed by app.py lines 208-225: `None` unless the
fetch succeeded with status 200 and a non-empty entry list, in which case it
is the first entry. -/
def resolveFound : FetchResult → Option Entry
  | FetchResult.raised => Option.none
  | FetchResult.response status entries =>
      if status = 200 then entries.head? else Option.none

/-- The title of the mock entry injected on search failure (app.py line 229):
the query in single quotation marks followed by " 관련 기사를 찾지 못했습니다.". -/
def mockTitle (query : String) : String :=
  "\x27" ++ query ++ "\x27 관련 기사를 찾지 못했습니다."

/-- Steps 1-2 of the per-category loop body (app.py lines 208-229): resolve
the feed for the single query of the category, and on failure force-inject the `MockEntry` placeholder.
Entry objects reaching `found_entry` are truthy, so `if not found_entry`
is the `Option.none` test. -/
def resolveEntry (fetch : String → FetchResult) (query : String) : Entry :=
  match resolveFound (fetch query) with
  | Option.some e => e
  | Option.none => MockEntry (mockTitle query) "#"

/-- The four fixed (category, query) pairs of app.py lines 188-193. -/
def categories : List (String × String) :=
  [("🇺🇸 미국 실물경제", "미국 경제 뉴스"),
   ("🇺🇸 미국 증시", "미국 증시"),
   ("🇰🇷 한국 실물경제", "한국 경제"),
   ("🇰🇷 한국 증시", "한국 증시")]

/-- One iteration of the category loop of `get_ai_summary` (app.py lines
204-244): resolve an entry (steps 1-2), run `analyze_single_news` inside its
own `try`, and on any escaped exception append the synthetic system-error
result instead (lines 237-244). Progress-bar updates and `time.sleep` do not
affect the produced value. -/
def processCategory (model : Option (String → GenOutcome)) (modelName : String)
    (fetch : String → FetchResult) (cq : String × String) : AnalysisResult :=
  match analyze_single_news model modelName (Option.some (resolveEntry fetch cq.2), cq.1) with
  | Except.ok r => r
  | Except.error e => ⟨PyVal.str "시스템 오류", PyVal.str "#", cq.1, "처리 실패: " ++ e⟩

/-- `get_ai_summary` of app.py lines 181-246: the per-category loop appending
one result per category, in declaration order. -/
def get_ai_summary (model : Option (String → GenOutcome)) (modelName : String)
    (fetch : String → FetchResult) : List AnalysisResult :=
  categories.map (processCategory model modelName fetch)

/-- The normalization of app.py lines 286-288, for one instrument column of
`df_view`: `first_row = df_view.iloc[0].replace(0, 1)` and
`df_value = (df_view / first_row) * 1000`. Exact rational arithmetic stands
in for the float arithmetic of pandas. -/
def normalizeSeries (xs : List ℚ) : List ℚ :=
  match xs with
  | [] => []
  | x0 :: _ =>
      let f := if x0 = 0 then 1 else x0
      xs.map (fun v => v / f * 1000)

/-- The currency-conversion block of app.py lines 278-279: when the toggle is
set and both the domestic column and the FX column are present, replace the
domestic column by its element-wise quotient with the FX column (the two
columns share the date index of the frame, so aligned positions are the same
date); otherwise leave it unchanged. -/
def applyUsdBase (use_usd_base : Bool) (dom fx : Option (List ℚ)) : Option (List ℚ) :=
  if use_usd_base then
    match dom, fx with
    | Option.some d, Option.some r => Option.some (List.zipWith (fun v x => v / x) d r)
    | _, _ => dom
  else dom

/-- Modelled from the spec: the multi-query fallback search resolver of §4.1
("iterate queries in order; ... treat any transport error, non-success status,
or empty result list as no hit and continue to the next query; stop at the
first query producing at least one entry, taking its first entry"; on
exhaustion "synthesize a placeholder NewsItem carrying a human-readable not
found message that embeds the category or query string, and a sentinel
link"). The revision under src/ keeps only single-query QuerySets, so the
multi-query chain the spec describes is not in src/; it is modelled here from
the wording of the spec. The second component records the trace of queries
attempted, in order. -/
def resolveQuerySetTrace (fetch : String → FetchResult) (category : String) :
    List String → Entry × List String
  | [] => (MockEntry (mockTitle category) "#", [])
  | q :: rest =>
      match resolveFound (fetch q) with
      | Option.some e => (e, [q])
      | Option.none =>
          let (e, tr) := resolveQuerySetTrace fetch category rest
          (e, q :: tr)

/-! ## Helper lemmas -/

/-- Any successful `analyze_single_news` result carries the category it was
called with. -/
theorem analyze_ok_category (m : Option (String → GenOutcome)) (mn : String)
    (eo : Option Entry) (c : String) (r : AnalysisResult)
    (h : analyze_single_news m mn (eo, c) = Except.ok r) : r.category = c := by
  cases eo with
  | none =>
      simp only [analyze_single_news] at h
      injection h with h2
      subst h2
      rfl
  | some entry =>
      simp only [analyze_single_news] at h
      repeat' split at h
      all_goals first
        | (injection h with h2; subst h2; rfl)
        | injection h

/-- Any successful `analyze_single_news` result has a non-empty comment. -/
theorem analyze_ok_comment (m : Option (String → GenOutcome)) (mn : String)
    (eo : Option Entry) (c : String) (r : AnalysisResult)
    (h : analyze_single_news m mn (eo, c) = Except.ok r) : r.ai_comment ≠ "" := by
  cases eo with
  | none =>
      simp only [analyze_single_news] at h
      injection h with h2
      subst h2
      exact ne_of_beq_false rfl
  | some entry =>
      simp only [analyze_single_news] at h
      repeat' split at h
      all_goals first
        | (injection h with h2; subst h2; first
            | assumption
            | exact ne_of_beq_false rfl)
        | injection h

/-- Every per-category result of the assembler loop has a non-empty comment,
whether `analyze_single_news` returned normally or the system-error fallback
fired. -/
theorem processCategory_comment (m : Option (String → GenOutcome)) (mn : String)
    (f : String → FetchResult) (cq : String × String) :
    (processCategory m mn f cq).ai_comment ≠ "" := by
  unfold processCategory
  split
  · rename_i r heq
    exact analyze_ok_comment _ _ _ _ _ heq
  · exact ne_of_beq_false rfl

/-- Every per-category result of the assembler loop carries its category. -/
theorem processCategory_category (m : Option (String → GenOutcome)) (mn : String)
    (f : String → FetchResult) (cq : String × String) :
    (processCategory m mn f cq).category = cq.1 := by
  unfold processCategory
  split
  · rename_i r heq
    exact analyze_ok_category _ _ _ _ _ heq
  · rfl

/-- Positional lookup in an element-wise quotient of two series. -/
theorem zipWith_div_get (d r : List ℚ) (i : ℕ) (hd : i < d.length) (hr : i < r.length) :
    (List.zipWith (fun v x => v / x) d r).get? i =
      Option.some (d.get ⟨i, hd⟩ / r.get ⟨i, hr⟩) := by
  induction d generalizing r i with
  | nil => simp at hd
  | cons a as ih =>
      cases r with
      | nil => simp at hr
      | cons b bs =>
          cases i with
          | zero => rfl
          | succ n =>
              exact ih bs n (Nat.succ_lt_succ_iff.mp hd) (Nat.succ_lt_succ_iff.mp hr)

/-! ## Claim theorems -/

/-- Claim C1: for every run of the pipeline assembler `get_ai_summary`,
regardless of how the search fetches and the generation calls behave
(including every one of them failing), the returned list contains exactly
four results, one per category, in the fixed declared category order
(US real economy, US equities, KR real economy, KR equities). The fetch and
generation oracles are universally quantified, so every failure pattern is
covered. -/
theorem c1_assembler_four_fixed_slots (model : Option (String → GenOutcome))
    (modelName : String) (fetch : String → FetchResult) :
    (get_ai_summary model modelName fetch).length = 4 ∧
    (get_ai_summary model modelName fetch).map AnalysisResult.category =
      ["🇺🇸 미국 실물경제", "🇺🇸 미국 증시", "🇰🇷 한국 실물경제", "🇰🇷 한국 증시"] := by
  refine ⟨by simp [get_ai_summary, categories], ?_⟩
  simp [get_ai_summary, categories, processCategory_category]

/-- Claim C2 (spec-modelled): the fallback resolver tries the queries of a
QuerySet in strict order. If q1 yields no entries and q2 yields at least one
entry, the resolver returns the first entry of the q2 feed, and its trace of
attempted queries is exactly [q1, q2]: q1 is attempted once and not re-tried,
q2 is attempted once, and any further query in the set is never attempted. -/
theorem c2_queryset_strict_order (fetch : String → FetchResult)
    (category q1 q2 : String) (rest : List String) (e : Entry) (es : List Entry)
    (h1 : fetch q1 = FetchResult.response 200 [])
    (h2 : fetch q2 = FetchResult.response 200 (e :: es)) :
    resolveQuerySetTrace fetch category (q1 :: q2 :: rest) = (e, [q1, q2]) := by
  simp [resolveQuerySetTrace, resolveFound, h1, h2]

/-- Concrete instance of claim C2: a three-query set where the first query
yields an empty feed and the second yields one entry. -/
theorem c2_witness :
    resolveQuerySetTrace
      (fun q => if q = "경제 A" then FetchResult.response 200 []
                else if q = "경제 B" then FetchResult.response 200 [MockEntry "T" "https://x"]
                else FetchResult.raised)
      "분야" ["경제 A", "경제 B", "경제 C"] = (MockEntry "T" "https://x", ["경제 A", "경제 B"]) :=
  c2_queryset_strict_order _ "분야" "경제 A" "경제 B" ["경제 C"] (MockEntry "T" "https://x") [] rfl rfl

/-- Claim C3: for every entry whose link attribute is a sentinel (missing,
None, empty, or "#"), `analyze_single_news` short-circuits to the fixed
result whose comment is the fixed no-news-found message. The generation
handle is universally quantified and the right-hand side does not depend on
it, so no generation-service call is made. -/
theorem c3_sentinel_short_circuit (model : Option (String → GenOutcome))
    (modelName : String) (entry : Entry) (category : String)
    (h : sentinelLink entry.link = true) :
    analyze_single_news model modelName (Option.some entry, category) =
      Except.ok ⟨entry.title.getD (PyVal.str "제목 없음"), PyVal.str "#", category,
        "관련된 최신 뉴스를 찾을 수 없습니다."⟩ := by
  simp [analyze_single_news, h]

/-- Concrete instance of claim C3: a mock entry with sentinel link "#". -/
theorem c3_witness :
    analyze_single_news Option.none "models/gemini-2.5-flash"
      (Option.some (MockEntry "T" "#"), "🇰🇷 한국 증시") =
      Except.ok ⟨PyVal.str "T", PyVal.str "#", "🇰🇷 한국 증시",
        "관련된 최신 뉴스를 찾을 수 없습니다."⟩ :=
  c3_sentinel_short_circuit Option.none "models/gemini-2.5-flash" (MockEntry "T" "#")
    "🇰🇷 한국 증시" rfl

/-- Claim C4: when the query of a category is exhausted with no hit (the
fetch raised, returned a non-success status, or returned an empty entry
list), the resolver returns the placeholder entry whose link is the sentinel
"#" and whose title embeds the query string. -/
theorem c4_exhausted_placeholder (fetch : String → FetchResult) (query : String)
    (h : fetch query = FetchResult.raised ∨
         ∃ st es, fetch query = FetchResult.response st es ∧ (st ≠ 200 ∨ es = [])) :
    resolveEntry fetch query = MockEntry (mockTitle query) "#" ∧
    ∃ pre post, mockTitle query = pre ++ query ++ post := by
  refine ⟨?_, ⟨"\x27", "\x27 관련 기사를 찾지 못했습니다.", rfl⟩⟩
  unfold resolveEntry
  have hnone : resolveFound (fetch query) = Option.none := by
    rcases h with h | ⟨st, es, heq, hbad⟩
    · rw [h]
      rfl
    · rw [heq]
      rcases hbad with hst | hes
      · simp [resolveFound, hst]
      · subst hes
        simp [resolveFound]
  rw [hnone]

/-- Concrete instance of claim C4: a fetch that always raises. -/
theorem c4_witness :
    resolveEntry (fun _ => FetchResult.raised) "한국 증시" = MockEntry (mockTitle "한국 증시") "#" ∧
    ∃ pre post, mockTitle "한국 증시" = pre ++ "한국 증시" ++ post :=
  c4_exhausted_placeholder (fun _ => FetchResult.raised) "한국 증시" (Or.inl rfl)

/-- Claim C5 (refuted; evidence of the code bug): an entry object that has a
valid link attribute but no title attribute makes `analyze_single_news` raise
an `AttributeError` past its boundary, both when no generation handle is
configured (the dict built at line 135 reads the missing attribute) and when
one is configured (the except handler at line 175 reads the missing
attribute while handling the failure of the prompt f-string), contradicting
the claim that every input produces a returned result. -/
theorem c5_missing_title_escapes :
    analyze_single_news Option.none "models/gemini-2.5-flash"
      (Option.some ⟨Option.none, Option.some (PyVal.str "https://news.example/a")⟩,
        "🇺🇸 미국 증시") = Except.error "AttributeError" ∧
    ∀ gen : String → GenOutcome,
      analyze_single_news (Option.some gen) "models/gemini-2.5-flash"
        (Option.some ⟨Option.none, Option.some (PyVal.str "https://news.example/a")⟩,
          "🇺🇸 미국 증시") = Except.error "AttributeError" :=
  ⟨rfl, fun _ => rfl⟩

/-- Claim C6: every result produced by the pipeline has non-empty commentary
text (first conjunct, over arbitrary oracle behavior), and on a successful
generation call returning text with non-empty strip, the commentary is
exactly the stripped text (second conjunct). -/
theorem c6_commentary_nonempty :
    (∀ (model : Option (String → GenOutcome)) (modelName : String)
        (fetch : String → FetchResult) (r : AnalysisResult),
        r ∈ get_ai_summary model modelName fetch → r.ai_comment ≠ "") ∧
    (∀ (gen : String → GenOutcome) (modelName category : String) (entry : Entry)
        (t : PyVal) (s text : String),
        entry.title = Option.some t →
        entry.link = Option.some (PyVal.str s) → s ≠ "" → s ≠ "#" →
        gen (mkPrompt modelName category (pyStr t)) = GenOutcome.ok text →
        pyStrip text ≠ "" →
        analyze_single_news (Option.some gen) modelName (Option.some entry, category) =
          Except.ok ⟨t, PyVal.str s, category, pyStrip text⟩) := by
  constructor
  · intro model modelName fetch r hr
    rw [get_ai_summary, List.mem_map] at hr
    obtain ⟨cq, _, rfl⟩ := hr
    exact processCategory_comment model modelName fetch cq
  · intro gen modelName category entry t s text htitle hlink hs1 hs2 hgen htrim
    simp [analyze_single_news, sentinelLink, htitle, hlink, hs1, hs2, hgen, htrim]

/-- Concrete instance of claim C6: the first result of an all-fetches-fail
run has non-empty commentary, and a successful generation call returning
" 좋아요 " yields the stripped commentary "좋아요". -/
theorem c6_witness :
    (⟨PyVal.str (mockTitle "미국 경제 뉴스"), PyVal.str "#", "🇺🇸 미국 실물경제",
      "관련된 최신 뉴스를 찾을 수 없습니다."⟩ : AnalysisResult).ai_comment ≠ "" ∧
    analyze_single_news (Option.some fun _ => GenOutcome.ok " 좋아요 ") "models/gemini-2.5-flash"
      (Option.some ⟨Option.some (PyVal.str "T"), Option.some (PyVal.str "https://x")⟩, "c") =
      Except.ok ⟨PyVal.str "T", PyVal.str "https://x", "c", "좋아요"⟩ :=
  ⟨c6_commentary_nonempty.1 Option.none "m" (fun _ => FetchResult.raised) _ (by decide),
   c6_commentary_nonempty.2 (fun _ => GenOutcome.ok " 좋아요 ") "models/gemini-2.5-flash" "c"
     ⟨Option.some (PyVal.str "T"), Option.some (PyVal.str "https://x")⟩ (PyVal.str "T")
     "https://x" " 좋아요 " rfl rfl (by decide) (by decide) rfl (by decide)⟩

/-- Claim C7: for every entry with a valid link and title and a configured
generation handle, if the generation call raises, the analyzer returns a
result whose commentary is the fixed error prefix followed by the detail of
the exception, so the error detail is embedded in the commentary. -/
theorem c7_error_embedded (gen : String → GenOutcome) (modelName category : String)
    (entry : Entry) (t : PyVal) (s msg : String)
    (htitle : entry.title = Option.some t)
    (hlink : entry.link = Option.some (PyVal.str s)) (hs1 : s ≠ "") (hs2 : s ≠ "#")
    (hgen : gen (mkPrompt modelName category (pyStr t)) = GenOutcome.err msg) :
    analyze_single_news (Option.some gen) modelName (Option.some entry, category) =
      Except.ok ⟨t, PyVal.str s, category, "분석 중 오류 발생: " ++ msg⟩ ∧
    ∃ pre, "분석 중 오류 발생: " ++ msg = pre ++ msg := by
  refine ⟨?_, ⟨"분석 중 오류 발생: ", rfl⟩⟩
  simp [analyze_single_news, sentinelLink, htitle, hlink, hs1, hs2, hgen]

/-- Concrete instance of claim C7: a generation call raising a quota error. -/
theorem c7_witness :
    analyze_single_news (Option.some fun _ => GenOutcome.err "quota exceeded")
      "models/gemini-2.5-pro"
      (Option.some ⟨Option.some (PyVal.str "T"), Option.some (PyVal.str "https://x")⟩, "c") =
      Except.ok ⟨PyVal.str "T", PyVal.str "https://x", "c",
        "분석 중 오류 발생: " ++ "quota exceeded"⟩ ∧
    ∃ pre, "분석 중 오류 발생: " ++ "quota exceeded" = pre ++ "quota exceeded" :=
  c7_error_embedded (fun _ => GenOutcome.err "quota exceeded") "models/gemini-2.5-pro" "c"
    ⟨Option.some (PyVal.str "T"), Option.some (PyVal.str "https://x")⟩ (PyVal.str "T")
    "https://x" "quota exceeded" rfl rfl (by decide) (by decide) rfl

/-- Claim C8: the normalizer divides every value of a series by the first
value of the trimmed window (a zero first value is replaced by 1) and
multiplies by the notional 1000; on the concrete 7-day series
[100, 102, 99, 101, 105, 98, 103] it yields exactly
[1000, 1020, 990, 1010, 1050, 980, 1030]. -/
theorem c8_normalizer_ratio_scaling (x0 : ℚ) (rest : List ℚ) :
    normalizeSeries (x0 :: rest) =
      (x0 :: rest).map (fun v => v / (if x0 = 0 then 1 else x0) * 1000) ∧
    normalizeSeries [100, 102, 99, 101, 105, 98, 103] =
      [1000, 1020, 990, 1010, 1050, 980, 1030] := by
  refine ⟨rfl, ?_⟩
  norm_num [normalizeSeries]

/-- Claim C9: with the conversion toggle on and both series present, the
converted domestic series is the element-wise quotient of domestic value and
FX rate at every aligned date position; with the toggle off the domestic
series is returned unchanged. -/
theorem c9_currency_conversion :
    (∀ (d r : List ℚ) (i : ℕ) (hd : i < d.length) (hr : i < r.length),
        ∃ out, applyUsdBase true (Option.some d) (Option.some r) = Option.some out ∧
          out.get? i = Option.some (d.get ⟨i, hd⟩ / r.get ⟨i, hr⟩)) ∧
    (∀ dom fx : Option (List ℚ), applyUsdBase false dom fx = dom) := by
  refine ⟨?_, fun dom fx => rfl⟩
  intro d r i hd hr
  exact ⟨_, rfl, zipWith_div_get d r i hd hr⟩

/-- Concrete instance of claim C9: a one-day series converted at rate 4. -/
theorem c9_witness :
    ∃ out, applyUsdBase true (Option.some [(3 : ℚ)]) (Option.some [4]) = Option.some out ∧
      out.get? 0 = Option.some ((3 : ℚ) / 4) :=
  c9_currency_conversion.1 [3] [4] 0 (by decide) (by decide)

/-- Claim C10: for every category and any generation-handle configuration,
calling `analyze_single_news` with a None entry returns the fixed failure
result (title "데이터 없음", sentinel link "#", the given category, the fixed
data-load-failed commentary) without raising; the handle is universally
quantified and unused, so no generation-service call is made. -/
theorem c10_none_entry_fixed_result (model : Option (String → GenOutcome))
    (modelName category : String) :
    analyze_single_news model modelName (Option.none, category) =
      Except.ok ⟨PyVal.str "데이터 없음", PyVal.str "#", category,
        "데이터 로드에 실패했습니다."⟩ := rfl

end Dashboard
